import Mathlib

/-!
Verification of `google/cloud/aiplatform/experimental/vertex_model/utils/source_utils.py`:
a shallow embedding of the import resolver (`get_imports`), the class source
assembler (`SourceMaker`, `_make_class_source`) and the script composer
(`_make_source`), together with theorems settling the specification's claims.

File access is abstracted: the resolver is given the parsed top-level statements
of the module instead of opening and parsing a file (in the original,
`_make_source` in fact hands `get_imports` a module object where a file path is
expected, which `open` rejects; the embedding grants the code the parsed
statements and keeps every later defect).  Python exceptions are modelled with
an explicit error type threaded through `Except`.
-/

namespace SourceUtils

/-- The Python exception kinds the embedded code can raise.  In Python's
exception hierarchy `KeyError` and `IndexError` are the two subclasses of
`LookupError`; `UnboundLocalError` is a `NameError`, and neither is a
`LookupError`. -/
inductive PyErr where
  | unboundLocalError
  | attributeError
  | indexError
  | keyError
  | nameError
  | parseError
deriving DecidableEq

/-- Whether an exception kind is (an instance of) Python's `LookupError`. -/
def PyErr.isLookupError : PyErr → Bool
  | PyErr.keyError => true
  | PyErr.indexError => true
  | _ => false

/-- Whether an `Except` computation returned normally. -/
def exceptIsOk {ε α : Type} : Except ε α → Bool
  | Except.ok _ => true
  | Except.error _ => false

/-- Whether an `Except` computation raised a Python `LookupError`. -/
def resultIsLookupError {α : Type} : Except PyErr α → Bool
  | Except.error e => e.isLookupError
  | Except.ok _ => false

/-- Python's `str.split(sep)` for a single-character separator, on the
character list (every `split` in the source uses `"."` or `"\n"`).  Splitting
the empty string yields `[[]]`, as in Python. -/
def splitChars (sep : Char) : List Char → List (List Char)
  | [] => [[]]
  | c :: rest =>
      let r := splitChars sep rest
      if c = sep then [] :: r
      else
        match r with
        | h :: t => (c :: h) :: t
        | [] => [[c]]

/-- Python's `s.split(sep)` for a single-character separator.  (Defined on the
character list so that it evaluates by kernel reduction; Python string
indexing and iteration are character-based.) -/
def pySplit (s : String) (sep : Char) : List String :=
  (splitChars sep s.data).map String.mk

/-- A primitive Python value, as the pass-through parameters and constructor
arguments carry them.  `pyStr` below is Python's `str` on these variants. -/
inductive PyVal where
  | intV (n : Int)
  | strV (s : String)
  | boolV (b : Bool)
deriving DecidableEq

/-- Python's `str()` on a primitive value: the default literal rendering used
by the composer's f-strings and by `','.join(map(str, ...))`. -/
def pyStr : PyVal → String
  | PyVal.intV n => toString n
  | PyVal.strV s => s
  | PyVal.boolV true => "True"
  | PyVal.boolV false => "False"

/-- A top-level statement of the user module, as `ast.iter_child_nodes`
presents it to `get_imports`: an `ast.Import` (each name is a dotted path with
an optional `as` alias), an `ast.ImportFrom` (whose `module` attribute is
`None` for a relative statement of the shape `from . import x`), or any other
statement. -/
inductive Stmt where
  | pyImport (names : List (String × Option String))
  | pyImportFrom (module : Option String) (names : List (String × Option String))
  | otherStmt
deriving DecidableEq

/-- The `Import` namedtuple of the source: `("module", "name", "alias")`.
The third field is called `aliasName` here because `alias` is a reserved
word in this development's ambient library. -/
structure Import where
  module : List String
  name : List String
  aliasName : Option String
deriving DecidableEq

/-- The records `get_imports` yields while processing one top-level statement:
for `ast.Import` the module list is `[]`; for `ast.ImportFrom` it is
`node.module.split(".")`, which raises `AttributeError` when `node.module` is
`None`; every name is split on dots and its `asname` carried along.  Other
statements contribute nothing (`continue`). -/
def importRecordsOfStmt : Stmt → Except PyErr (List Import)
  | Stmt.pyImport names =>
      Except.ok (names.map fun p => ⟨[], pySplit p.1 '.', p.2⟩)
  | Stmt.pyImportFrom mod names =>
      match mod with
      | Option.none => Except.error PyErr.attributeError
      | Option.some m =>
          Except.ok (names.map fun p => ⟨pySplit m '.', pySplit p.1 '.', p.2⟩)
  | Stmt.otherStmt => Except.ok []

/-- `get_imports` run to exhaustion on a parsed module: the records of every
top-level statement, in source order, with the first raised exception
propagated. -/
def getImports : List Stmt → Except PyErr (List Import)
  | [] => Except.ok []
  | st :: rest => do
      let rs ← importRecordsOfStmt st
      let tail ← getImports rest
      Except.ok (rs ++ tail)

/-- The record sequence of a module whose resolution succeeds (empty when the
resolver raises). -/
def importRecords (stmts : List Stmt) : List Import :=
  match getImports stmts with
  | Except.ok l => l
  | Except.error _ => []

/-- A Python generator object over items of type `α`: iteration consumes it. -/
structure PyGen (α : Type) where
  remaining : List α
deriving DecidableEq

/-- Iterating a generator to exhaustion: it yields everything that remains and
is afterwards empty — a second iteration of the same object yields nothing. -/
def PyGen.exhaust {α : Type} (g : PyGen α) : List α × PyGen α :=
  (g.remaining, ⟨[]⟩)

/-- The generator object a call to `get_imports` returns: its items are the
module's import records. -/
def getImportsGen (stmts : List Stmt) : PyGen Import :=
  ⟨importRecords stmts⟩

/-- Python list subscription `xs[i]`: `IndexError` when out of range. -/
def pyGetItem {α : Type} (xs : List α) (i : Nat) : Except PyErr α :=
  match xs.get? i with
  | Option.some x => Except.ok x
  | Option.none => Except.error PyErr.indexError

/-- Reading a local variable that may not have been assigned yet:
`UnboundLocalError` when it is still unbound.  In `_make_source` the
accumulator `src` is read (`src = src + "from "`) before any assignment to
it. -/
def readLocal (src : Option String) : Except PyErr String :=
  match src with
  | Option.some s => Except.ok s
  | Option.none => Except.error PyErr.unboundLocalError

/-- The inner loops of the import-rendering block: `my_import[1][k]` is a
string (a single dotted segment of the imported name), so `for module in
modules: src = src + module + "."` iterates over its characters, appending
each character and a dot. -/
def dotJoinChars (seg : String) (acc : String) : String :=
  seg.data.foldl (fun a c => a ++ c.toString ++ ".") acc

/-- Python's `s[:-1]` (drop the final character; the empty string stays
empty). -/
def pyDropLast (s : String) : String := String.mk s.data.dropLast

/-- One iteration of `for my_import in imports:` in `_make_source`, threading
the possibly-unbound accumulator `src`.  `my_import[1]` is the record's `name`
field (not the module path), so `my_import[1][0]`, `my_import[1][1]` and
`my_import[1][2]` are the first three dotted segments of the imported name
(`IndexError` when fewer exist); each branch reads `src` before the loop ever
assigns it, which raises `UnboundLocalError` on the first record. -/
def renderImportStep (src : Option String) (imp : Import) :
    Except PyErr (Option String) := do
  let seg0 ← pyGetItem imp.name 0
  let src ←
    if seg0.length > 0 then do
      let s ← readLocal src
      Except.ok (Option.some (pyDropLast (dotJoinChars seg0 (s ++ "from "))))
    else Except.ok src
  let seg1 ← pyGetItem imp.name 1
  let src ←
    if seg1.length > 0 then do
      let s ← readLocal src
      Except.ok (Option.some (pyDropLast (dotJoinChars seg1 (s ++ " import "))))
    else Except.ok src
  let seg2 ← pyGetItem imp.name 2
  let src ←
    if seg2.length > 0 then do
      let s ← readLocal src
      Except.ok (Option.some (pyDropLast (dotJoinChars seg2 (s ++ " as "))))
    else Except.ok src
  let s ← readLocal src
  Except.ok (Option.some (s ++ "\n"))

/-- The whole `for my_import in imports:` loop, interleaved with the lazy
generator statement by statement: each top-level statement's records are
produced (which may raise inside `get_imports`) and then rendered (which may
raise in the loop body), exactly as the exceptions interleave in Python. -/
def renderImportsOfStmts (src : Option String) :
    List Stmt → Except PyErr (Option String)
  | [] => Except.ok src
  | st :: rest => do
      let rs ← importRecordsOfStmt st
      let src ← rs.foldlM renderImportStep src
      renderImportsOfStmts src rest

/-- The hard-coded prologue of the generated script, as listed in
`_make_source` (the `torch` and `pandas` entries are commented out in the
source). -/
def boilerplateLines : List String :=
  ["import os",
   "from google.cloud.aiplatform.experimental.vertex_model import base",
   "from google.cloud.aiplatform.experimental.vertex_model.serializers.pandas import _deserialize_dataframe",
   "from google.cloud.aiplatform.experimental.vertex_model.serializers.pytorch import _deserialize_dataloader",
   "from google.cloud.aiplatform.experimental.vertex_model.serializers import model"]

/-- `src = "\n".join([...boilerplate..., cls_source])`: the reassignment that
replaces (and thereby discards) whatever the import-rendering loop had
accumulated. -/
def prologueAndClass (cls_source : String) : String :=
  String.intercalate "\n" (boilerplateLines ++ [cls_source])

/-- The live object as `_make_source` consumes it: the parsed top-level
statements of its class's module, the positional constructor arguments after
`self` (`class_args.args[1:]`, from the recorded `_constructor_arguments`
bound against the signature), and `_data_serialization_mapping` as an ordered
dictionary from runtime type tag to the `__name__` of entry `[0]` (the
deserializer whose name the composer writes). -/
structure VertexObj where
  moduleStmts : List Stmt
  constructorArgs : List PyVal
  dataSerializationMapping : List (String × String)
deriving DecidableEq

/-- `obj._data_serialization_mapping[parameter_type][0].__name__`: dictionary
lookup by the runtime type tag, raising `KeyError` (Python's `LookupError`
subclass) when the type has no entry. -/
def lookupDeserializer (mapping : List (String × String)) (t : String) :
    Except PyErr String :=
  match mapping.find? (fun p => p.1 == t) with
  | Option.some p => Except.ok p.2
  | Option.none => Except.error PyErr.keyError

/-- One serialized-parameter fragment:
`f"{parameter_name}={deserializer.__name__}('{parameter_uri}'), "`. -/
def serializedFrag (mapping : List (String × String))
    (parameter_name parameter_uri parameter_type : String) : Except PyErr String := do
  let deserializer ← lookupDeserializer mapping parameter_type
  Except.ok (parameter_name ++ "=" ++ deserializer ++ "('" ++ parameter_uri ++ "'), ")

/-- The serialized-parameter loop of `_make_source`, concatenating the
fragments in mapping-iteration order and propagating the first `KeyError`
(the `print` of the mapping's keys in the loop body is a side effect with no
bearing on the result and is not modelled). -/
def serializedFrags (mapping : List (String × String)) :
    List (String × String × String) → Except PyErr String
  | [] => Except.ok ""
  | info :: rest => do
      let f ← serializedFrag mapping info.1 info.2.1 info.2.2
      let tail ← serializedFrags mapping rest
      Except.ok (f ++ tail)

/-- One pass-through fragment: `f"{parameter_name}='{parameter_value}', "`
when `type(parameter_value) is str`, else
`f"{parameter_name}={parameter_value}, "`. -/
def passThroughFrag : String × PyVal → String
  | (parameter_name, PyVal.strV s) => parameter_name ++ "='" ++ s ++ "', "
  | (parameter_name, v) => parameter_name ++ "=" ++ pyStr v ++ ", "

/-- The pass-through loop of `_make_source`, in mapping-iteration order. -/
def passThroughFrags : List (String × PyVal) → String
  | [] => ""
  | p :: rest => passThroughFrag p ++ passThroughFrags rest

/-- The instantiation statement:
`f"my_model = {cls_name}({','.join(map(str, class_args.args[1:]))})\n"`. -/
def instantiationStmt (cls_name : String) (args : List PyVal) : String :=
  "my_model = " ++ cls_name ++ "(" ++ String.intercalate "," (args.map pyStr) ++ ")\n"

/-- The final persistence statement appended verbatim to every generated
script; the output directory is the text `os.getenv('AIP_MODEL_DIR')`, i.e. it
is read from the environment when the generated script itself runs. -/
def persistenceStmt : String :=
  "model._serialize_local_model(os.getenv('AIP_MODEL_DIR'), my_model, my_model.training_mode)"

/-- `_make_source` of the source file.  The import-rendering loop runs first
(its exceptions propagate) but its accumulated value is discarded: the source
then reassigns `src` to the newline-join of the boilerplate and the class
source, appends the instantiation statement, the optional method-call
statement, and the persistence statement. -/
def _make_source (cls_source : String) (cls_name : String)
    (instance_method : Option String)
    (pass_through_params : List (String × PyVal))
    (param_name_to_serialized_info : List (String × String × String))
    (obj : VertexObj) : Except PyErr String := do
  let _rendered ← renderImportsOfStmts Option.none obj.moduleStmts
  let src := prologueAndClass cls_source
  let src := src ++ instantiationStmt cls_name obj.constructorArgs
  match instance_method with
  | Option.some m => do
      let frags ← serializedFrags obj.dataSerializationMapping param_name_to_serialized_info
      let src := src ++ "my_model." ++ m ++ "(" ++ frags
        ++ passThroughFrags pass_through_params ++ ")\n"
      Except.ok (src ++ persistenceStmt)
  | Option.none => Except.ok (src ++ persistenceStmt)

/-- A member of the live instance as `inspect.getmembers(obj)` reports it:
whether it is a bound method or function, its `__repr__()` text, and its
`inspect.getsource` text. -/
structure Member where
  isMethodOrFunction : Bool
  reprText : String
  sourceText : String
deriving DecidableEq

/-- The live instance as `_make_class_source` consumes it: its class name, its
enumerated members, and the sources of its `fit` and `predict` methods. -/
structure LiveInstance where
  clsName : String
  members : List Member
  fitSource : String
  predictSource : String
deriving DecidableEq

/-- `SourceMaker`: its constructor seeds `self.source` with the class header
line `"class {}(torch.nn.Module):".format(cls_name)`. -/
structure SourceMaker where
  source : List String
deriving DecidableEq

/-- `SourceMaker.__init__`. -/
def SourceMaker.init (cls_name : String) : SourceMaker :=
  ⟨["class " ++ cls_name ++ "(torch.nn.Module):"]⟩

/-- `SourceMaker.add_method`: extend `self.source` with the method text split
on newlines. -/
def SourceMaker.add_method (sm : SourceMaker) (method_str : String) : SourceMaker :=
  ⟨sm.source ++ pySplit method_str '\n'⟩

/-- The capture predicate of the generic member scan:
`(inspect.ismethod(value) or inspect.isfunction(value)) and
value.__repr__()[len("<bound method "):].startswith(obj.__class__.__name__)`
(Python slicing and `startswith` are character-based, so they are modelled on
the character lists). -/
def memberCaptured (cls_name : String) (m : Member) : Bool :=
  m.isMethodOrFunction &&
    cls_name.data.isPrefixOf (m.reprText.data.drop "<bound method ".data.length)

/-- The line list `_make_class_source` accumulates: the header, then the
source of every captured member in enumeration order, then unconditionally the
sources of `fit` and `predict`. -/
def classSourceLines (obj : LiveInstance) : List String :=
  let sm := SourceMaker.init obj.clsName
  let sm := obj.members.foldl
    (fun sm m => if memberCaptured obj.clsName m then sm.add_method m.sourceText else sm) sm
  let sm := sm.add_method obj.fitSource
  let sm := sm.add_method obj.predictSource
  sm.source

/-- `_make_class_source` of the source file: the accumulated lines joined with
newlines. -/
def _make_class_source (obj : LiveInstance) : String :=
  String.intercalate "\n" (classSourceLines obj)

/-- The body lines that follow the header in `classSourceLines`: the captured
members' split sources, then the split `fit` source, then the split `predict`
source. -/
def capturedBodyLines (obj : LiveInstance) : List String :=
  ((obj.members.filter (memberCaptured obj.clsName)).map
    (fun m => pySplit m.sourceText '\n')).flatten
  ++ pySplit obj.fitSource '\n' ++ pySplit obj.predictSource '\n'

/-- The single-quote character used by Python literal syntax. -/
def quoteChar : Char := '\''

/-- The numeric value of a digit-character list read in base ten. -/
def digitsToNat (cs : List Char) : Nat :=
  cs.foldl (fun n c => 10 * n + (c.toNat - 48)) 0

/-- Modelled from the spec: whether a token is a Python integer literal
(optionally sign-prefixed digits), and its value. -/
def parseIntToken (tok : String) : Option Int :=
  match tok.data with
  | [] => Option.none
  | c :: rest =>
      if c = '-' then
        if rest ≠ [] && rest.all Char.isDigit then
          Option.some (-(Int.ofNat (digitsToNat rest)))
        else Option.none
      else if (c :: rest).all Char.isDigit then
        Option.some (Int.ofNat (digitsToNat (c :: rest)))
      else Option.none

/-- Modelled from the spec: the execution semantics of one rendered argument
token of the instantiation statement, in an environment of bound names — text
that parses as an integer evaluates to that integer, `True`/`False` to the
booleans, a token wrapped in single quotes to the quoted string, and any other
token is a bare name that raises `NameError` when unbound.  (The spec's
testable property says the emitted `my_model = ClassName(...)` text, "when
executed, produces a class instance with those argument values bound
identically to the original"; the evaluation of the emitted argument text is
not itself code of this repository.) -/
def evalArgToken (env : List (String × PyVal)) (tok : String) : Except PyErr PyVal :=
  match parseIntToken tok with
  | Option.some n => Except.ok (PyVal.intV n)
  | Option.none =>
      if tok = "True" then Except.ok (PyVal.boolV true)
      else if tok = "False" then Except.ok (PyVal.boolV false)
      else if tok.data.head? = Option.some quoteChar
          && tok.data.getLast? = Option.some quoteChar && 2 ≤ tok.data.length then
        Except.ok (PyVal.strV (String.mk (tok.data.drop 1).dropLast))
      else
        match env.find? (fun p => p.1 == tok) with
        | Option.some p => Except.ok p.2
        | Option.none => Except.error PyErr.nameError

/-- The Import Records as section 4.1 of the spec describes them, for
comparison with `getImports`: one record per imported name in source order;
a plain `import` contributes an empty source path and the dotted name split
into segments; a `from`-import contributes the dotted module path split into
segments, the split imported name, and its alias; other statements are
skipped.  (For a relative `from . import x` the spec-side rendering uses the
empty module text; `getImports` instead raises there.) -/
def specRecordsOfStmt : Stmt → List Import
  | Stmt.pyImport names => names.map fun p => ⟨[], pySplit p.1 '.', p.2⟩
  | Stmt.pyImportFrom mod names =>
      names.map fun p => ⟨pySplit (mod.getD "") '.', pySplit p.1 '.', p.2⟩
  | Stmt.otherStmt => []

/-- The spec-side record sequence of a whole module. -/
def specImportRecords (stmts : List Stmt) : List Import :=
  stmts.flatMap specRecordsOfStmt

/-- A statement the resolver can process without raising: everything except a
`from`-import whose `module` attribute is `None`. -/
def resolvable : Stmt → Bool
  | Stmt.pyImportFrom Option.none _ => false
  | _ => true

/-- The optional method-call segment of the generated script, as a function of
the method name, the serialized fragments and the pass-through fragments:
empty when no method was supplied. -/
def callSegment (instance_method : Option String) (frags passText : String) : String :=
  match instance_method with
  | Option.some m => "my_model." ++ m ++ "(" ++ frags ++ passText ++ ")\n"
  | Option.none => ""

set_option maxRecDepth 100000

set_option maxHeartbeats 2000000

/-! ## Supporting lemmas -/

/-- A generated script returned with no method to invoke is exactly prologue,
class source, instantiation statement and persistence statement. -/
theorem make_source_none_ok (cls_source cls_name : String)
    (pass : List (String × PyVal)) (ser : List (String × String × String))
    (obj : VertexObj) (s : String)
    (h : _make_source cls_source cls_name Option.none pass ser obj = Except.ok s) :
    s = prologueAndClass cls_source ++ instantiationStmt cls_name obj.constructorArgs
        ++ persistenceStmt := by
  unfold _make_source at h
  cases hr : renderImportsOfStmts Option.none obj.moduleStmts with
  | error e => rw [hr] at h; simp [Bind.bind, Except.bind] at h
  | ok v =>
      rw [hr] at h
      simp only [Bind.bind, Except.bind, Except.ok.injEq] at h
      exact h.symm

/-- A generated script returned with a method to invoke decomposes into
prologue, class source, instantiation statement, the call statement built from
the serialized and pass-through fragments, and the persistence statement. -/
theorem make_source_some_ok (cls_source cls_name m : String)
    (pass : List (String × PyVal)) (ser : List (String × String × String))
    (obj : VertexObj) (s : String)
    (h : _make_source cls_source cls_name (Option.some m) pass ser obj = Except.ok s) :
    ∃ frags, serializedFrags obj.dataSerializationMapping ser = Except.ok frags ∧
      s = prologueAndClass cls_source ++ instantiationStmt cls_name obj.constructorArgs
          ++ "my_model." ++ m ++ "(" ++ frags ++ passThroughFrags pass ++ ")\n"
          ++ persistenceStmt := by
  unfold _make_source at h
  cases hr : renderImportsOfStmts Option.none obj.moduleStmts with
  | error e => rw [hr] at h; simp [Bind.bind, Except.bind] at h
  | ok v =>
      rw [hr] at h
      cases hs : serializedFrags obj.dataSerializationMapping ser with
      | error e => rw [hs] at h; simp [Bind.bind, Except.bind] at h
      | ok frags =>
          rw [hs] at h
          simp only [Bind.bind, Except.bind, Except.ok.injEq] at h
          exact ⟨frags, rfl, h.symm⟩

/-- Dictionary lookup in the deserializer registry fails only with
`KeyError`. -/
theorem lookupDeserializer_error (mapping : List (String × String)) (t : String) (e : PyErr)
    (h : lookupDeserializer mapping t = Except.error e) : e = PyErr.keyError := by
  unfold lookupDeserializer at h
  cases hf : mapping.find? (fun p => p.1 == t) with
  | some p => rw [hf] at h; simp at h
  | none => rw [hf] at h; simp at h; exact h.symm

/-- The serialized-parameter loop fails only with `KeyError`. -/
theorem serializedFrags_error_keyError (mapping : List (String × String))
    (infos : List (String × String × String)) (e : PyErr)
    (h : serializedFrags mapping infos = Except.error e) : e = PyErr.keyError := by
  induction infos with
  | nil => simp [serializedFrags] at h
  | cons info rest ih =>
      unfold serializedFrags serializedFrag at h
      cases hl : lookupDeserializer mapping info.2.2 with
      | error e' =>
          rw [hl] at h
          simp [Bind.bind, Except.bind] at h
          rw [← h]
          exact lookupDeserializer_error mapping info.2.2 e' hl
      | ok d =>
          rw [hl] at h
          simp only [Bind.bind, Except.bind] at h
          cases hr : serializedFrags mapping rest with
          | error e'' => rw [hr] at h; simp at h; subst h; exact ih hr
          | ok tail => rw [hr] at h; simp at h

/-- The serialized-parameter loop fails exactly when some descriptor's runtime
type has no entry in the deserializer registry. -/
theorem serializedFrags_error_iff (mapping : List (String × String))
    (infos : List (String × String × String)) :
    exceptIsOk (serializedFrags mapping infos) = false ↔
      ∃ info ∈ infos, lookupDeserializer mapping info.2.2 = Except.error PyErr.keyError := by
  induction infos with
  | nil => simp [serializedFrags, exceptIsOk]
  | cons info rest ih =>
      constructor
      · intro h
        unfold serializedFrags serializedFrag at h
        cases hl : lookupDeserializer mapping info.2.2 with
        | error e' =>
            exact ⟨info, List.mem_cons_self _ _,
              by simpa [lookupDeserializer_error mapping info.2.2 e' hl] using hl⟩
        | ok d =>
            rw [hl] at h
            simp only [Bind.bind, Except.bind] at h
            cases hr : serializedFrags mapping rest with
            | error e'' =>
                obtain ⟨info', hmem, hmiss⟩ := ih.mp (by rw [hr]; rfl)
                exact ⟨info', List.mem_cons_of_mem _ hmem, hmiss⟩
            | ok tail => rw [hr] at h; simp [exceptIsOk] at h
      · rintro ⟨info', hmem, hmiss⟩
        rcases List.mem_cons.mp hmem with heq | hmem'
        · subst heq
          unfold serializedFrags serializedFrag
          rw [hmiss]
          rfl
        · unfold serializedFrags serializedFrag
          cases hl : lookupDeserializer mapping info.2.2 with
          | error e' => rfl
          | ok d =>
              have hx : exceptIsOk (serializedFrags mapping rest) = false :=
                ih.mpr ⟨info', hmem', hmiss⟩
              cases hr : serializedFrags mapping rest with
              | error e'' => rfl
              | ok tail => rw [hr] at hx; simp [exceptIsOk] at hx

/-- `add_method` appends the split method text to the accumulated lines. -/
theorem SourceMaker.source_add_method (sm : SourceMaker) (str : String) :
    (sm.add_method str).source = sm.source ++ pySplit str '\n' := rfl

/-- The generic member scan only ever appends to the accumulated source
lines. -/
theorem foldl_add_method (cls_name : String) (members : List Member) (sm : SourceMaker) :
    (members.foldl
      (fun sm m => if memberCaptured cls_name m then sm.add_method m.sourceText else sm)
      sm).source
      = sm.source ++ ((members.filter (memberCaptured cls_name)).map
          (fun m => pySplit m.sourceText '\n')).flatten := by
  induction members generalizing sm with
  | nil => simp
  | cons m rest ih =>
      rw [List.foldl_cons]
      by_cases hc : memberCaptured cls_name m
      · rw [if_pos hc, ih, SourceMaker.source_add_method]
        simp [hc, List.append_assoc]
      · rw [if_neg hc, ih]
        simp [hc]

/-- The assembled line list is the header followed by the captured bodies,
the `fit` source and the `predict` source, in that order. -/
theorem classSourceLines_eq (obj : LiveInstance) :
    classSourceLines obj
      = ("class " ++ obj.clsName ++ "(torch.nn.Module):") :: capturedBodyLines obj := by
  unfold classSourceLines
  rw [SourceMaker.source_add_method, SourceMaker.source_add_method, foldl_add_method]
  simp [SourceMaker.init, capturedBodyLines, List.append_assoc]

/-- On a resolvable statement the resolver produces exactly the records the
spec describes. -/
theorem importRecordsOfStmt_resolvable (st : Stmt) (h : resolvable st = true) :
    importRecordsOfStmt st = Except.ok (specRecordsOfStmt st) := by
  cases st with
  | pyImport names => rfl
  | pyImportFrom mod names =>
      cases mod with
      | none => simp [resolvable] at h
      | some m => rfl
  | otherStmt => rfl

/-! ## The claims -/

/-- C1: the claim says the composed script contains, after the prologue and
before the class source, one rendered line per Import Record, re-parseable and
semantically equivalent to the original import.  The code cannot do this: on a
module containing `import a.b.c` the rendering loop raises
`UnboundLocalError` (the accumulator `src` is read before any assignment), and
even with a bound accumulator the loop renders `import a.b.c` as the text
`from a import b as c` — indexing the name segments instead of the record's
fields — and that text would in any case be discarded when `src` is reassigned
to the prologue join.  The theorem evaluates the composer at the failing input
and exhibits the mangled rendering of the loop body. -/
theorem import_lines_never_reach_script :
    _make_source "class C(torch.nn.Module):" "C" Option.none [] []
        (VertexObj.mk [Stmt.pyImport [("a.b.c", Option.none)]] [] [])
      = Except.error PyErr.unboundLocalError
    ∧ renderImportStep (Option.some "") (Import.mk [] ["a", "b", "c"] Option.none)
      = Except.ok (Option.some "from a import b as c\n") :=
  ⟨rfl, rfl⟩

/-- C2: whenever the composer returns a script and a method name was supplied,
the script contains the call statement `my_model.<method>(` followed by one
fragment `<name>=<deserializer>('<uri>'), ` per serialized descriptor in
mapping-iteration order (deserializer looked up by runtime type), then one
fragment per pass-through parameter in mapping-iteration order
(`<name>='<value>', ` for a string value, `<name>=<value>, ` otherwise), then
`)`; when the method name is `None` the call segment is empty. -/
theorem call_statement_rendering (cls_source cls_name : String)
    (instance_method : Option String) (pass : List (String × PyVal))
    (ser : List (String × String × String)) (obj : VertexObj) (s frags : String)
    (hf : serializedFrags obj.dataSerializationMapping ser = Except.ok frags)
    (h : _make_source cls_source cls_name instance_method pass ser obj = Except.ok s) :
    (∀ n u t d, lookupDeserializer obj.dataSerializationMapping t = Except.ok d →
        serializedFrag obj.dataSerializationMapping n u t
          = Except.ok (n ++ "=" ++ d ++ "('" ++ u ++ "'), "))
    ∧ (∀ n v, passThroughFrag (n, PyVal.strV v) = n ++ "='" ++ v ++ "', ")
    ∧ (∀ n k, passThroughFrag (n, PyVal.intV k) = n ++ "=" ++ pyStr (PyVal.intV k) ++ ", ")
    ∧ s = prologueAndClass cls_source ++ instantiationStmt cls_name obj.constructorArgs
          ++ callSegment instance_method frags (passThroughFrags pass)
          ++ persistenceStmt := by
  refine ⟨?_, fun n v => rfl, fun n k => rfl, ?_⟩
  · intro n u t d hd
    unfold serializedFrag
    rw [hd]
    rfl
  · cases instance_method with
    | none =>
        have hs := make_source_none_ok _ _ _ _ _ _ h
        rw [hs]
        simp [callSegment, String.append_assoc]
    | some m =>
        obtain ⟨frags', hf', hs⟩ := make_source_some_ok _ _ _ _ _ _ _ h
        rw [hf] at hf'
        injection hf' with he
        subst he
        rw [hs]
        simp only [callSegment, String.append_assoc]

/-- C2 witness: a concrete successful composition with one serialized `Table`
parameter (deserializer `load_table`, location `gs://bucket/t.parquet`) and
pass-through parameters `epochs=5` and `name="run1"`, whose call statement
renders exactly as the claim states. -/
theorem call_statement_rendering_witness :
    _make_source "c" "C" (Option.some "fit")
        [("epochs", PyVal.intV 5), ("name", PyVal.strV "run1")]
        [("table", "gs://bucket/t.parquet", "Table")]
        (VertexObj.mk [] [PyVal.intV 7] [("Table", "load_table")])
      = Except.ok "import os\nfrom google.cloud.aiplatform.experimental.vertex_model import base\nfrom google.cloud.aiplatform.experimental.vertex_model.serializers.pandas import _deserialize_dataframe\nfrom google.cloud.aiplatform.experimental.vertex_model.serializers.pytorch import _deserialize_dataloader\nfrom google.cloud.aiplatform.experimental.vertex_model.serializers import model\ncmy_model = C(7)\nmy_model.fit(table=load_table('gs://bucket/t.parquet'), epochs=5, name='run1', )\nmodel._serialize_local_model(os.getenv('AIP_MODEL_DIR'), my_model, my_model.training_mode)"
    ∧ "import os\nfrom google.cloud.aiplatform.experimental.vertex_model import base\nfrom google.cloud.aiplatform.experimental.vertex_model.serializers.pandas import _deserialize_dataframe\nfrom google.cloud.aiplatform.experimental.vertex_model.serializers.pytorch import _deserialize_dataloader\nfrom google.cloud.aiplatform.experimental.vertex_model.serializers import model\ncmy_model = C(7)\nmy_model.fit(table=load_table('gs://bucket/t.parquet'), epochs=5, name='run1', )\nmodel._serialize_local_model(os.getenv('AIP_MODEL_DIR'), my_model, my_model.training_mode)"
      = prologueAndClass "c" ++ instantiationStmt "C" [PyVal.intV 7]
        ++ callSegment (Option.some "fit") "table=load_table('gs://bucket/t.parquet'), "
            (passThroughFrags [("epochs", PyVal.intV 5), ("name", PyVal.strV "run1")])
        ++ persistenceStmt :=
  ⟨rfl,
   (call_statement_rendering "c" "C" (Option.some "fit")
      [("epochs", PyVal.intV 5), ("name", PyVal.strV "run1")]
      [("table", "gs://bucket/t.parquet", "Table")]
      (VertexObj.mk [] [PyVal.intV 7] [("Table", "load_table")])
      "import os\nfrom google.cloud.aiplatform.experimental.vertex_model import base\nfrom google.cloud.aiplatform.experimental.vertex_model.serializers.pandas import _deserialize_dataframe\nfrom google.cloud.aiplatform.experimental.vertex_model.serializers.pytorch import _deserialize_dataloader\nfrom google.cloud.aiplatform.experimental.vertex_model.serializers import model\ncmy_model = C(7)\nmy_model.fit(table=load_table('gs://bucket/t.parquet'), epochs=5, name='run1', )\nmodel._serialize_local_model(os.getenv('AIP_MODEL_DIR'), my_model, my_model.training_mode)"
      "table=load_table('gs://bucket/t.parquet'), " rfl rfl).2.2.2⟩

/-- C3 counterexample: for constructor arguments `(5, "x")` the emitted
statement is the text `my_model = ClassName(5,x)` — the string argument is
rendered by `str()` without quotes, so the emitted token `x` is a bare name,
and executing it in an environment where `x` is unbound raises `NameError`
instead of rebinding the string `"x"`; the claim's "bound identically to the
original" fails at this input. -/
theorem string_ctor_arg_not_rebound :
    instantiationStmt "ClassName" [PyVal.intV 5, PyVal.strV "x"] = "my_model = ClassName(5,x)\n"
    ∧ pyStr (PyVal.strV "x") = "x"
    ∧ evalArgToken [] (pyStr (PyVal.strV "x")) = Except.error PyErr.nameError
    ∧ (Except.error PyErr.nameError : Except PyErr PyVal) ≠ Except.ok (PyVal.strV "x") :=
  ⟨rfl, rfl, rfl, fun h => Except.noConfusion h⟩

/-- C3 (amended): every returned script contains, directly after the prologue
and class source, the instantiation statement binding `my_model` to the class
name applied to the `str()`-rendered positional constructor arguments
(excluding `self`); for arguments `(5, "x")` that statement is literally
`my_model = ClassName(5,x)`, and executing the rendered text reproduces the
original binding only for arguments whose textual representation re-evaluates
to the same value, such as the integer `5`. -/
theorem instantiation_statement_rendering (cls_source cls_name : String)
    (instance_method : Option String) (pass : List (String × PyVal))
    (ser : List (String × String × String)) (obj : VertexObj) (s : String)
    (h : _make_source cls_source cls_name instance_method pass ser obj = Except.ok s) :
    (∃ rest, s = prologueAndClass cls_source
        ++ instantiationStmt cls_name obj.constructorArgs ++ rest)
    ∧ instantiationStmt "ClassName" [PyVal.intV 5, PyVal.strV "x"]
        = "my_model = ClassName(5,x)\n"
    ∧ evalArgToken [] (pyStr (PyVal.intV 5)) = Except.ok (PyVal.intV 5) := by
  refine ⟨?_, rfl, rfl⟩
  cases instance_method with
  | none => exact ⟨persistenceStmt, make_source_none_ok _ _ _ _ _ _ h⟩
  | some m =>
      obtain ⟨frags, _, hs⟩ := make_source_some_ok _ _ _ _ _ _ _ h
      refine ⟨"my_model." ++ m ++ "(" ++ frags ++ passThroughFrags pass ++ ")\n"
          ++ persistenceStmt, ?_⟩
      rw [hs]
      simp only [String.append_assoc]

/-- C3 witness: the theorem applied to a concrete successful composition. -/
theorem instantiation_statement_rendering_witness :
    instantiationStmt "ClassName" [PyVal.intV 5, PyVal.strV "x"]
      = "my_model = ClassName(5,x)\n" :=
  (instantiation_statement_rendering "c" "C" Option.none [] [] (VertexObj.mk [] [] [])
    (prologueAndClass "c" ++ instantiationStmt "C" [] ++ persistenceStmt) rfl).2.1

/-- C4: the assembled class source has the header `class <Name>(torch.nn.Module):`
as line 0, the output is exactly the header followed by the captured method
bodies in capture order (appended, never reordered or deduplicated), the `fit`
and `predict` sources always appear in the output, and — provided no method
body contains a line equal to the header, which reflection-returned `def`
bodies cannot, being indented — the header line occurs exactly once. -/
theorem class_source_assembler_invariants (obj : LiveInstance)
    (hbody : ("class " ++ obj.clsName ++ "(torch.nn.Module):") ∉ capturedBodyLines obj) :
    classSourceLines obj
      = ("class " ++ obj.clsName ++ "(torch.nn.Module):") :: capturedBodyLines obj
    ∧ (classSourceLines obj).count ("class " ++ obj.clsName ++ "(torch.nn.Module):") = 1
    ∧ List.IsInfix (pySplit obj.fitSource '\n') (classSourceLines obj)
    ∧ List.IsInfix (pySplit obj.predictSource '\n') (classSourceLines obj)
    ∧ _make_class_source obj = String.intercalate "\n" (classSourceLines obj) := by
  refine ⟨classSourceLines_eq obj, ?_, ?_, ?_, rfl⟩
  · rw [classSourceLines_eq, List.count_cons_self, List.count_eq_zero.mpr hbody]
  · rw [classSourceLines_eq]
    unfold capturedBodyLines
    exact ⟨("class " ++ obj.clsName ++ "(torch.nn.Module):")
        :: ((obj.members.filter (memberCaptured obj.clsName)).map
          (fun m => pySplit m.sourceText '\n')).flatten,
      pySplit obj.predictSource '\n', by simp⟩
  · rw [classSourceLines_eq]
    unfold capturedBodyLines
    exact ⟨("class " ++ obj.clsName ++ "(torch.nn.Module):")
        :: (((obj.members.filter (memberCaptured obj.clsName)).map
          (fun m => pySplit m.sourceText '\n')).flatten ++ pySplit obj.fitSource '\n'),
      [], by simp⟩

/-- C4 witness: a concrete instance with one captured member (`C.foo`), one
member rejected by the repr-prefix heuristic (`Base.helper`), and `fit` and
`predict` sources; the header is line 0 and occurs exactly once. -/
theorem class_source_assembler_invariants_witness :
    classSourceLines
        (LiveInstance.mk "C"
          [Member.mk true "<bound method C.foo of Cobj>" "    def foo(self):\n        return 1",
           Member.mk true "<bound method Base.helper of Cobj>" "    def helper(self):\n        return 2"]
          "    def fit(self):\n        pass" "    def predict(self):\n        pass")
      = ("class C(torch.nn.Module):")
        :: capturedBodyLines
          (LiveInstance.mk "C"
            [Member.mk true "<bound method C.foo of Cobj>" "    def foo(self):\n        return 1",
             Member.mk true "<bound method Base.helper of Cobj>" "    def helper(self):\n        return 2"]
            "    def fit(self):\n        pass" "    def predict(self):\n        pass")
    ∧ (classSourceLines
        (LiveInstance.mk "C"
          [Member.mk true "<bound method C.foo of Cobj>" "    def foo(self):\n        return 1",
           Member.mk true "<bound method Base.helper of Cobj>" "    def helper(self):\n        return 2"]
          "    def fit(self):\n        pass" "    def predict(self):\n        pass")).count
        "class C(torch.nn.Module):" = 1 :=
  ⟨(class_source_assembler_invariants
      (LiveInstance.mk "C"
        [Member.mk true "<bound method C.foo of Cobj>" "    def foo(self):\n        return 1",
         Member.mk true "<bound method Base.helper of Cobj>" "    def helper(self):\n        return 2"]
        "    def fit(self):\n        pass" "    def predict(self):\n        pass") (by decide)).1,
   (class_source_assembler_invariants
      (LiveInstance.mk "C"
        [Member.mk true "<bound method C.foo of Cobj>" "    def foo(self):\n        return 1",
         Member.mk true "<bound method Base.helper of Cobj>" "    def helper(self):\n        return 2"]
        "    def fit(self):\n        pass" "    def predict(self):\n        pass") (by decide)).2.1⟩

/-- C5 counterexample: a syntactically valid module whose second statement is
the relative import `from . import y` makes the resolver raise
`AttributeError` instead of yielding one record per imported name (the module
has two imported names, `os` and `y`, yet no record sequence is produced). -/
theorem relative_import_stops_resolution :
    getImports [Stmt.pyImport [("os", Option.none)],
        Stmt.pyImportFrom Option.none [("y", Option.none)]]
      = Except.error PyErr.attributeError
    ∧ (Except.error PyErr.attributeError : Except PyErr (List Import))
        ≠ Except.ok (specImportRecords [Stmt.pyImport [("os", Option.none)],
            Stmt.pyImportFrom Option.none [("y", Option.none)]]) :=
  ⟨rfl, fun h => Except.noConfusion h⟩

/-- C5 (amended): for every module in which each `from`-import carries an
explicit source module (in particular, no `from . import x`), the resolver
yields exactly one Import Record per imported name, in source order, skipping
non-import top-level statements: a plain `import` gives an empty source-path
list and the dotted name split into segments, a `from`-import gives the split
module path, the split imported name and its alias. -/
theorem resolver_yields_spec_records (stmts : List Stmt)
    (h : ∀ st ∈ stmts, resolvable st = true) :
    getImports stmts = Except.ok (specImportRecords stmts) := by
  induction stmts with
  | nil => rfl
  | cons st rest ih =>
      unfold getImports
      rw [importRecordsOfStmt_resolvable st (h st (List.mem_cons_self _ _)),
        ih (fun st' hst' => h st' (List.mem_cons_of_mem _ hst'))]
      simp [Bind.bind, Except.bind, specImportRecords]

/-- C5 witness: the theorem applied to a module with a dotted plain import, a
non-import statement and an aliased `from`-import. -/
theorem resolver_yields_spec_records_witness :
    getImports [Stmt.pyImport [("a.b.c", Option.none)], Stmt.otherStmt,
        Stmt.pyImportFrom (Option.some "a.b") [("c", Option.some "d")]]
      = Except.ok (specImportRecords [Stmt.pyImport [("a.b.c", Option.none)], Stmt.otherStmt,
          Stmt.pyImportFrom (Option.some "a.b") [("c", Option.some "d")]]) :=
  resolver_yields_spec_records _ (by decide)

/-- C6 counterexample: with no method name supplied, a serialized descriptor
whose runtime type `Table` has no registry entry does not make generation
fail — the composer returns a script and raises no `LookupError` — so "fails
with a LookupError if and only if some descriptor's type is unregistered" is
false as stated. -/
theorem missing_deserializer_without_method_no_failure :
    lookupDeserializer ([] : List (String × String)) "Table" = Except.error PyErr.keyError
    ∧ exceptIsOk (_make_source "c" "C" Option.none [] [("x", "u", "Table")]
        (VertexObj.mk [] [] [])) = true
    ∧ resultIsLookupError (_make_source "c" "C" Option.none [] [("x", "u", "Table")]
        (VertexObj.mk [] [] [])) = false :=
  ⟨rfl, rfl, rfl⟩

/-- C6 (amended): when a method name is supplied and the import-rendering
phase raises no earlier error, script generation fails with a `LookupError`
(concretely Python's `KeyError`, a `LookupError` subclass) if and only if some
serialized descriptor's runtime type has no entry in the deserializer
registry; the failure is immediate and, the result being a single `Except`
value, no partially generated script is returned. -/
theorem lookup_error_iff_missing_deserializer (cls_source cls_name m : String)
    (pass : List (String × PyVal)) (ser : List (String × String × String))
    (obj : VertexObj)
    (himp : exceptIsOk (renderImportsOfStmts Option.none obj.moduleStmts) = true) :
    resultIsLookupError (_make_source cls_source cls_name (Option.some m) pass ser obj) = true
      ↔ ∃ info ∈ ser, lookupDeserializer obj.dataSerializationMapping info.2.2
          = Except.error PyErr.keyError := by
  cases hr : renderImportsOfStmts Option.none obj.moduleStmts with
  | error e => rw [hr] at himp; simp [exceptIsOk] at himp
  | ok v =>
      unfold _make_source
      rw [hr]
      simp only [Bind.bind, Except.bind]
      cases hs : serializedFrags obj.dataSerializationMapping ser with
      | error e =>
          have he := serializedFrags_error_keyError _ _ _ hs
          subst he
          constructor
          · intro _
            exact (serializedFrags_error_iff _ _).mp (by rw [hs]; rfl)
          · intro _
            rfl
      | ok frags =>
          constructor
          · intro hfalse
            simp [resultIsLookupError] at hfalse
          · intro hex
            have hbad := (serializedFrags_error_iff obj.dataSerializationMapping ser).mpr hex
            rw [hs] at hbad
            simp [exceptIsOk] at hbad

/-- C6 witness: with a method supplied and an unregistered type `Table`,
generation does fail with a `LookupError`. -/
theorem lookup_error_iff_missing_deserializer_witness :
    resultIsLookupError (_make_source "c" "C" (Option.some "fit") []
        [("x", "u", "Table")] (VertexObj.mk [] [] [])) = true :=
  (lookup_error_iff_missing_deserializer "c" "C" "fit" [] [("x", "u", "Table")]
      (VertexObj.mk [] [] []) rfl).mpr
    ⟨("x", "u", "Table"), List.mem_cons_self _ _, rfl⟩

/-- C7: every script the composer returns — with or without a method name —
ends with the persistence statement
`model._serialize_local_model(os.getenv('AIP_MODEL_DIR'), my_model,
my_model.training_mode)`, whose output directory is read from the
`AIP_MODEL_DIR` environment variable when the generated script itself runs,
and the text ends at that call's closing parenthesis with no trailing
statement separator. -/
theorem script_ends_with_persistence (cls_source cls_name : String)
    (instance_method : Option String) (pass : List (String × PyVal))
    (ser : List (String × String × String)) (obj : VertexObj) (s : String)
    (h : _make_source cls_source cls_name instance_method pass ser obj = Except.ok s) :
    (∃ p, s = p ++ persistenceStmt) ∧ persistenceStmt.takeRight 1 = ")" := by
  refine ⟨?_, rfl⟩
  cases instance_method with
  | none => exact ⟨_, make_source_none_ok _ _ _ _ _ _ h⟩
  | some m =>
      obtain ⟨frags, _, hs⟩ := make_source_some_ok _ _ _ _ _ _ _ h
      exact ⟨_, hs⟩

/-- C7 witness: the theorem applied to a concrete successful composition. -/
theorem script_ends_with_persistence_witness :
    persistenceStmt.takeRight 1 = ")" :=
  (script_ends_with_persistence "c" "C" Option.none [] [] (VertexObj.mk [] [] [])
    (prologueAndClass "c" ++ instantiationStmt "C" [] ++ persistenceStmt) rfl).2

/-- C8 counterexample: the object `get_imports` returns is a generator, and it
is not restartable — for a module with one `import os` the first traversal
yields the one record but a second traversal of the same object yields
nothing, so the two traversals differ. -/
theorem generator_second_traversal_differs :
    (getImportsGen [Stmt.pyImport [("os", Option.none)]]).exhaust.2.exhaust.1
      ≠ (getImportsGen [Stmt.pyImport [("os", Option.none)]]).exhaust.1 := by
  decide

/-- C8 (amended): the record sequence is single-shot, not restartable — the
first traversal of the returned generator yields all of the module's records
in order, and a second traversal of the same object always yields the empty
sequence (so the two traversals agree only when the module yields no
records). -/
theorem generator_single_shot (stmts : List Stmt) :
    (getImportsGen stmts).exhaust.1 = importRecords stmts
    ∧ (getImportsGen stmts).exhaust.2.exhaust.1 = ([] : List Import) :=
  ⟨rfl, rfl⟩

/-- C9: on a module whose only statement is the relative import
`from . import x` (its `ImportFrom` node carries no source module), the
resolver raises `AttributeError` — the unguarded `None.split(".")`
dereference — which is not the `ParseError` the spec names as the resolver's
only failure mode. -/
theorem relative_import_raises_attribute_error :
    getImports [Stmt.pyImportFrom Option.none [("x", Option.none)]]
      = Except.error PyErr.attributeError
    ∧ PyErr.attributeError ≠ PyErr.parseError :=
  ⟨rfl, fun h => PyErr.noConfusion h⟩

/-- C10: for every string-valued pass-through parameter the rendered call-site
fragment is exactly `<name>='` then the value's characters verbatim then
`', ` — no escaping or transformation of any character of the value, whatever
it contains. -/
theorem string_passthrough_verbatim (parameter_name s : String) :
    passThroughFrag (parameter_name, PyVal.strV s)
      = parameter_name ++ "='" ++ s ++ "', " := rfl

end SourceUtils
